import Mathlib

/-!
Verification of the snake-game core (`src/snake_game.py`) via a shallow
embedding: the geometry, the `Snake`, `Food`, `SpecialFood` and `Leaderboard`
operations, and the per-tick dynamics of `run_game`, translated into Lean
definitions, plus theorems settling the frozen claims about them.
-/

namespace SnakeGame

/-! ### Constants (`snake_game.py`, module level) -/

def WIDTH : Int := 800

def HEIGHT : Int := 600

def GRID_SIZE : Int := 20

/-! ### Rectangles and pygame's `colliderect`

`pygame.Rect(x, y, w, h)` spans `[x, x+w) × [y, y+h)`; for rectangles of
positive size, `colliderect` is true iff the open overlaps in both axes are
nonempty (shared edges do not collide). -/

structure Rect where
  x : Int
  y : Int
  w : Int
  h : Int
deriving DecidableEq, Repr

def Rect.collides (a b : Rect) : Prop :=
  a.x < b.x + b.w ∧ b.x < a.x + a.w ∧ a.y < b.y + b.h ∧ b.y < a.y + a.h

instance (a b : Rect) : Decidable (a.collides b) :=
  inferInstanceAs (Decidable (_ ∧ _ ∧ _ ∧ _))

/-- The pause-button exclusion rectangle `pygame.Rect(WIDTH - 60, 20, 40, 40)`. -/
def forbidden_pause : Rect := ⟨WIDTH - 60, 20, 40, 40⟩

/-- The score-readout exclusion rectangle `pygame.Rect(0, 0, 150, 50)`. -/
def forbidden_score : Rect := ⟨0, 0, 150, 50⟩

/-! ### Directions and the Snake (`class Snake`) -/

inductive Dir where
  | UP
  | DOWN
  | LEFT
  | RIGHT
deriving DecidableEq, Repr

/-- The exact 180-degree reverse of a direction (spec-side notion used to
state the reversal-rejection claims). -/
def Dir.opposite : Dir → Dir
  | .UP => .DOWN
  | .DOWN => .UP
  | .LEFT => .RIGHT
  | .RIGHT => .LEFT

structure Snake where
  head : Int × Int
  body : List (Int × Int)
  direction : Dir
  new_direction : Dir
  grow : Bool
deriving DecidableEq, Repr

/-- The snake constructed by `Snake.__init__`: head at the grid center,
empty body, moving right, nothing buffered, no pending growth. -/
def Snake.init : Snake :=
  { head := (WIDTH / 2, HEIGHT / 2)
    body := []
    direction := .RIGHT
    new_direction := .RIGHT
    grow := false }

/-- The four sequential `if` statements at the top of `Snake.move`, each
reading the (possibly already updated) current direction. -/
def Snake.commitDir (cur nd : Dir) : Dir :=
  let d := cur
  let d := if nd = Dir.RIGHT ∧ d ≠ Dir.LEFT then Dir.RIGHT else d
  let d := if nd = Dir.LEFT ∧ d ≠ Dir.RIGHT then Dir.LEFT else d
  let d := if nd = Dir.UP ∧ d ≠ Dir.DOWN then Dir.UP else d
  let d := if nd = Dir.DOWN ∧ d ≠ Dir.UP then Dir.DOWN else d
  d

/-- One `GRID_SIZE` step of the head in a direction (the final `if`/`elif`
chain of `Snake.move`). -/
def Snake.step (d : Dir) (p : Int × Int) : Int × Int :=
  match d with
  | .RIGHT => (p.1 + GRID_SIZE, p.2)
  | .LEFT => (p.1 - GRID_SIZE, p.2)
  | .UP => (p.1, p.2 - GRID_SIZE)
  | .DOWN => (p.1, p.2 + GRID_SIZE)

/-- Embeds `Snake.move`: commit the buffered direction unless it reverses the
current one, push a copy of the head onto the body, pop the tail unless
growing (clearing the grow flag instead), then advance the head one cell. -/
def Snake.move (s : Snake) : Snake :=
  let dir := Snake.commitDir s.direction s.new_direction
  let body := s.head :: s.body
  let pair := if s.grow = false then (body.dropLast, s.grow) else (body, false)
  { head := Snake.step dir s.head
    body := pair.1
    direction := dir
    new_direction := s.new_direction
    grow := pair.2 }

/-- A `KEYDOWN` arrow event in `run_game`: unconditionally overwrites the
single buffered direction slot `snake.new_direction`. -/
def Snake.keydown (s : Snake) (d : Dir) : Snake :=
  { s with new_direction := d }

/-! ### Food (`class Food`)

`Food.spawn` draws `x = random.randrange(0, WIDTH, GRID_SIZE)` and
`y = random.randrange(0, HEIGHT, GRID_SIZE)` and retries while the one-cell
rectangle collides with either exclusion rectangle.  The randomness is
embedded as an explicit stream of candidate draws; `spawnFrom` returns the
first accepted draw. -/

/-- The domain of one `randrange` draw in `Food.spawn`: a cell-aligned
point inside the grid. -/
def validDraw (p : Int × Int) : Prop :=
  0 ≤ p.1 ∧ p.1 < WIDTH ∧ GRID_SIZE ∣ p.1 ∧ 0 ≤ p.2 ∧ p.2 < HEIGHT ∧ GRID_SIZE ∣ p.2

instance (p : Int × Int) : Decidable (validDraw p) :=
  inferInstanceAs (Decidable (_ ∧ _ ∧ _ ∧ _ ∧ _ ∧ _))

/-- The acceptance test of `Food.spawn`'s retry loop: the candidate cell's
rectangle collides with neither exclusion rectangle.  The snake is not
consulted. -/
def foodCellOK (p : Int × Int) : Prop :=
  ¬ (Rect.collides ⟨p.1, p.2, GRID_SIZE, GRID_SIZE⟩ forbidden_pause ∨
     Rect.collides ⟨p.1, p.2, GRID_SIZE, GRID_SIZE⟩ forbidden_score)

instance (p : Int × Int) : Decidable (foodCellOK p) :=
  inferInstanceAs (Decidable (¬ _))

/-- Embeds `Food.spawn`'s `while True` retry loop over a stream of candidate
draws: the position becomes the first candidate passing `foodCellOK`
(`none` if the stream runs out). -/
def Food.spawnFrom : List (Int × Int) → Option (Int × Int)
  | [] => none
  | c :: cs => if foodCellOK c then some c else Food.spawnFrom cs

/-! ### Special food (`class SpecialFood`) -/

structure SpecialFood where
  x : Int
  y : Int
  dx : Int
  dy : Int
deriving DecidableEq, Repr

/-- Embeds `SpecialFood.get_rect`: the two-cell-wide footprint rectangle. -/
def SpecialFood.get_rect (s : SpecialFood) : Rect :=
  ⟨s.x, s.y, 2 * GRID_SIZE, GRID_SIZE⟩

/-- The footprint currently collides with an exclusion rectangle. -/
def SpecialFood.collidesForbidden (s : SpecialFood) : Prop :=
  s.get_rect.collides forbidden_pause ∨ s.get_rect.collides forbidden_score

instance (s : SpecialFood) : Decidable s.collidesForbidden :=
  inferInstanceAs (Decidable (_ ∨ _))

/-- The velocity components drawn by `SpecialFood.__init__`:
`random.choice([-5, -4, 4, 5])`. -/
def velOK (d : Int) : Prop :=
  d = -5 ∨ d = -4 ∨ d = 4 ∨ d = 5

instance (d : Int) : Decidable (velOK d) :=
  inferInstanceAs (Decidable (_ ∨ _ ∨ _ ∨ _))

/-- A position produced by `SpecialFood.spawn`'s retry loop:
`x = randrange(0, WIDTH - 2*GRID_SIZE, GRID_SIZE)`,
`y = randrange(0, HEIGHT - GRID_SIZE, GRID_SIZE)`, accepted only if the
footprint collides with neither exclusion rectangle. -/
def validSpecialSpawn (x y : Int) : Prop :=
  0 ≤ x ∧ x < WIDTH - 2 * GRID_SIZE ∧ GRID_SIZE ∣ x ∧
  0 ≤ y ∧ y < HEIGHT - GRID_SIZE ∧ GRID_SIZE ∣ y ∧
  ¬ SpecialFood.collidesForbidden ⟨x, y, 0, 0⟩

instance (x y : Int) : Decidable (validSpecialSpawn x y) :=
  inferInstanceAs (Decidable (_ ∧ _ ∧ _ ∧ _ ∧ _ ∧ _ ∧ _))

/-- Embeds `SpecialFood.update`: integrate position by velocity; on leaving the
horizontal or vertical range, negate that velocity component and re-add it;
then, if the footprint collides with an exclusion rectangle, negate both
components and add them (the escape maneuver). -/
def SpecialFood.update (s : SpecialFood) : SpecialFood :=
  let x0 := s.x + s.dx
  let y0 := s.y + s.dy
  let dx1 := if x0 < 0 ∨ x0 > WIDTH - 2 * GRID_SIZE then -s.dx else s.dx
  let x1 := if x0 < 0 ∨ x0 > WIDTH - 2 * GRID_SIZE then x0 + -s.dx else x0
  let dy1 := if y0 < 0 ∨ y0 > HEIGHT - GRID_SIZE then -s.dy else s.dy
  let y1 := if y0 < 0 ∨ y0 > HEIGHT - GRID_SIZE then y0 + -s.dy else y0
  if SpecialFood.collidesForbidden ⟨x1, y1, dx1, dy1⟩ then
    ⟨x1 + -dx1, y1 + -dy1, -dx1, -dy1⟩
  else
    ⟨x1, y1, dx1, dy1⟩

/-- The special-food states reachable in `run_game`: any accepted spawn
with the drawn velocities, closed under `update`. -/
inductive SFReach : SpecialFood → Prop
  | spawn (x y dx dy : Int) :
      validSpecialSpawn x y → velOK dx → velOK dy → SFReach ⟨x, y, dx, dy⟩
  | step (s : SpecialFood) : SFReach s → SFReach s.update

/-! ### Leaderboard (`class Leaderboard`)

A record is `{"username": ..., "score": ..., "date": ...}`; the `date`
string produced by `datetime.now().strftime(...)` is embedded as an
abstract timestamp passed into `add_score`. -/

structure Record where
  username : String
  score : Int
  date : Nat
deriving DecidableEq, Repr

/-- Python's `str.lower()` as used on identities: lower-case every
character. -/
def pyLower (s : String) : String :=
  ⟨s.data.map Char.toLower⟩

/-- The case-insensitive identity match of `add_score`:
`s["username"].lower() == username.lower()`. -/
def matchesUser (r : Record) (username : String) : Bool :=
  pyLower r.username == pyLower username

/-- The in-place mutation of the first case-insensitive match found by
`next(...)` in `add_score`: its score and date are replaced only when the
new score is strictly greater. -/
def updateScore : List Record → String → Int → Nat → List Record
  | [], _, _, _ => []
  | r :: rs, username, score, now =>
    if matchesUser r username then
      (if score > r.score then { r with score := score, date := now } else r) :: rs
    else
      r :: updateScore rs username score now

/-- Python `list.sort(key=..., reverse=True)` is stable; descending stable
insertion of one record: it goes in front of the first record whose score
is not greater than its own. -/
def insertDesc (r : Record) : List Record → List Record
  | [] => [r]
  | x :: xs => if x.score > r.score then x :: insertDesc r xs else r :: x :: xs

/-- Embeds `self.scores.sort(key=lambda x: x["score"], reverse=True)`: stable sort,
descending by score. -/
def sortDesc : List Record → List Record
  | [] => []
  | x :: xs => insertDesc x (sortDesc xs)

/-- Embeds `Leaderboard.add_score(username, score)` at an abstract current time
`now`: update the first case-insensitive match (keep-max) or append a new
record, then re-sort descending by score and truncate to the top 10. -/
def add_score (scores : List Record) (username : String) (score : Int)
    (now : Nat) : List Record :=
  let scores' :=
    if (scores.find? fun s => matchesUser s username).isSome then
      updateScore scores username score now
    else
      scores ++ [⟨username, score, now⟩]
  (sortDesc scores').take 10

/-! ### Persistence reads (`Leaderboard.load`, `load_settings`)

A read of the backing file either finds it missing, finds unparseable
contents, or yields parsed data.  `Except` carries a propagated (uncaught)
exception. -/

inductive ReadOutcome (α : Type) where
  | missing
  | corrupt
  | ok (v : α)

/-- Embeds `Leaderboard.load`: `json.load` under `try ... except FileNotFoundError`.
A missing file is caught and yields the empty leaderboard; a corrupt file
raises `json.JSONDecodeError`, which no handler catches. -/
def leaderboardLoad : ReadOutcome (List Record) → Except String (List Record)
  | .missing => .ok []
  | .corrupt => .error "json.JSONDecodeError"
  | .ok v => .ok v

structure Settings where
  sound_volume : ℚ
  game_speed : ℚ
deriving DecidableEq, Repr

/-- Embeds `load_settings`: if the settings file does not exist, set the defaults
0.5 and 0.1; otherwise parse it under `try ... except Exception`, reading
each key with `.get` defaults 0.5 and 0.4 — a parse failure is caught and
leaves the current global values unchanged.  A parsed file may omit either
key, hence `Option` fields. -/
def load_settings (prev : Settings) :
    ReadOutcome (Option ℚ × Option ℚ) → Settings
  | .missing => ⟨1/2, 1/10⟩
  | .corrupt => prev
  | .ok v => ⟨v.1.getD (1/2), v.2.getD (2/5)⟩

/-! ### The game session (`run_game`) -/

/-- Python's `int()` on a rational value: truncation toward zero. -/
def pyInt (q : ℚ) : Int :=
  if 0 ≤ q then q.floor else -(-q).floor

/-- Embeds `current_fps = int(10 + game_speed * 20)`, computed once before the
game loop. -/
def currentFps (speed : ℚ) : Int :=
  pyInt (10 + speed * 20)

/-- The session state carried across iterations of the `while True` loop in
`run_game`.  `speed` and `fps` are the session's configured speed and the
frame rate derived from it before the loop.  `specialEats` and `doubleEats`
are ghost counters (they count special-food eats and ticks on which both
foods were eaten; no game behavior reads them). -/
structure GameState where
  snake : Snake
  foodPos : Int × Int
  score : Nat
  speed : ℚ
  fps : Int
  specialEats : Nat
  doubleEats : Nat
deriving DecidableEq, Repr

/-- The state at the top of the first loop iteration of `run_game`:
freshly constructed snake, a spawned food, score 0, and the fps derived
from the configured speed. -/
def initState (speed : ℚ) (foodPos : Int × Int) : GameState :=
  { snake := Snake.init
    foodPos := foodPos
    score := 0
    speed := speed
    fps := currentFps speed
    specialEats := 0
    doubleEats := 0 }

/-- One non-paused iteration of the `run_game` loop, as far as the snake,
food and score are concerned: the key events overwrite the buffered
direction (`nd`, `none` when no arrow key arrived), `snake.move()` runs,
then the normal-food collision (`head == food.position`: set grow, respawn
the food at `newFood`, add 10) and the special-food collision (abstracted
by `specialHit`: set grow, add 20). -/
def applyKeys (s : Snake) : Option Dir → Snake
  | none => s
  | some d => s.keydown d

def tickFun (g : GameState) (nd : Option Dir) (newFood : Int × Int)
    (specialHit : Bool) : GameState :=
  let s1 := (applyKeys g.snake nd).move
  let ate := s1.head = g.foodPos
  let s2 := if ate then { s1 with grow := true } else s1
  let food := if ate then newFood else g.foodPos
  let score1 := if ate then g.score + 10 else g.score
  let s3 := if specialHit then { s2 with grow := true } else s2
  let score2 := if specialHit then score1 + 20 else score1
  { snake := s3
    foodPos := food
    score := score2
    speed := g.speed
    fps := g.fps
    specialEats := g.specialEats + (if specialHit then 1 else 0)
    doubleEats := g.doubleEats + (if ate ∧ specialHit then 1 else 0) }

/-- The session states reachable in `run_game`: a start state with a
configured speed in `[0,1]` and a validly spawned food, closed under game
ticks whose food respawns are valid spawn results. -/
inductive Reachable : GameState → Prop
  | init (speed : ℚ) (foodPos : Int × Int) :
      0 ≤ speed → speed ≤ 1 → validDraw foodPos → foodCellOK foodPos →
      Reachable (initState speed foodPos)
  | tick (g : GameState) (nd : Option Dir) (newFood : Int × Int)
      (specialHit : Bool) :
      Reachable g → validDraw newFood → foodCellOK newFood →
      Reachable (tickFun g nd newFood specialHit)

/-! ## Theorems -/

/-- C3: buffering the exact opposite of the current direction leaves the
effective direction unchanged at the next `move`; in particular with the
snake moving RIGHT, buffering LEFT keeps the direction RIGHT and the head
advances one cell to the right. -/
theorem c3_reversal_ignored (s : Snake) :
    (s.keydown s.direction.opposite).move.direction = s.direction ∧
    (s.direction = Dir.RIGHT →
      (s.keydown Dir.LEFT).move.direction = Dir.RIGHT ∧
      (s.keydown Dir.LEFT).move.head = (s.head.1 + GRID_SIZE, s.head.2)) := by
  obtain ⟨h, b, d, nd, g⟩ := s
  constructor
  · cases d <;> simp [Snake.keydown, Snake.move, Snake.commitDir, Dir.opposite, Snake.step]
  · intro hd
    simp only at hd
    subst hd
    simp [Snake.keydown, Snake.move, Snake.commitDir, Snake.step]

/-- C3 witness: the snake just after `Snake.__init__` is moving RIGHT;
buffering LEFT leaves it RIGHT and moves the head from (400, 300) to
(420, 300). -/
theorem c3_reversal_ignored_witness :
    (Snake.init.keydown Snake.init.direction.opposite).move.direction =
        Snake.init.direction ∧
      (Snake.init.keydown Dir.LEFT).move.direction = Dir.RIGHT ∧
      (Snake.init.keydown Dir.LEFT).move.head = (420, 300) :=
  ⟨(c3_reversal_ignored Snake.init).1,
   ((c3_reversal_ignored Snake.init).2 rfl).1,
   ((c3_reversal_ignored Snake.init).2 rfl).2⟩

/-- C4: one `Snake.move` commits the buffered direction unless it is the
exact reverse of the current one, makes the new body the previous head
followed by the previous body with the tail dropped (the whole previous
trail when growing), clears the grow flag, leaves the buffer untouched,
and steps the head one `GRID_SIZE` in the committed direction. -/
theorem c4_move_semantics (s : Snake) :
    s.move.direction =
        (if s.new_direction = s.direction.opposite then s.direction
         else s.new_direction) ∧
    s.move.body =
        (if s.grow then s.head :: s.body else (s.head :: s.body).dropLast) ∧
    s.move.grow = false ∧
    s.move.new_direction = s.new_direction ∧
    s.move.head = Snake.step s.move.direction s.head := by
  obtain ⟨h, b, d, nd, g⟩ := s
  refine ⟨?_, ?_, ?_, ?_, ?_⟩ <;>
    cases d <;> cases nd <;> cases g <;>
      simp [Snake.move, Snake.commitDir, Dir.opposite, Snake.step]

/-- C9: the direction buffer is a single unconditionally overwritten slot,
with reversal rejection applied only at `move` time: moving RIGHT and
receiving UP then LEFT leaves LEFT in the buffer, the commit rejects it,
and the snake keeps moving RIGHT — the earlier valid UP is discarded. -/
theorem c9_buffer_last_write_wins (s : Snake) :
    (∀ d1 d2 : Dir, ((s.keydown d1).keydown d2).new_direction = d2) ∧
    (s.direction = Dir.RIGHT →
      ((s.keydown Dir.UP).keydown Dir.LEFT).new_direction = Dir.LEFT ∧
      ((s.keydown Dir.UP).keydown Dir.LEFT).move.direction = Dir.RIGHT ∧
      ((s.keydown Dir.UP).keydown Dir.LEFT).move.head =
        (s.head.1 + GRID_SIZE, s.head.2)) := by
  obtain ⟨h, b, d, nd, g⟩ := s
  constructor
  · intro d1 d2
    rfl
  · intro hd
    simp only at hd
    subst hd
    simp [Snake.keydown, Snake.move, Snake.commitDir, Snake.step]

/-- C9 witness: from the freshly constructed snake (moving RIGHT), UP then
LEFT leaves LEFT buffered, the move keeps RIGHT, and the head steps right. -/
theorem c9_buffer_last_write_wins_witness :
    ((Snake.init.keydown Dir.UP).keydown Dir.LEFT).new_direction = Dir.LEFT ∧
    ((Snake.init.keydown Dir.UP).keydown Dir.LEFT).move.direction = Dir.RIGHT ∧
    ((Snake.init.keydown Dir.UP).keydown Dir.LEFT).move.head = (420, 300) :=
  (c9_buffer_last_write_wins Snake.init).2 rfl

/-- Helper: `SpecialFood.update` never moves a footprint that is clear of the
exclusion rectangles onto one of them, given speed components of magnitude
at most 5: when no boundary reflection fires, the escape maneuver exactly
undoes the offending step; when one fires, the step lands strictly less
than one speed unit deep, far from the opposite side of either rectangle. -/
theorem sf_update_preserves_ok (s : SpecialFood)
    (hdx : -5 ≤ s.dx ∧ s.dx ≤ 5) (hdy : -5 ≤ s.dy ∧ s.dy ≤ 5)
    (h : ¬ s.collidesForbidden) : ¬ s.update.collidesForbidden := by
  obtain ⟨x, y, dx, dy⟩ := s
  simp only [SpecialFood.collidesForbidden, SpecialFood.get_rect, Rect.collides,
    forbidden_pause, forbidden_score, WIDTH, HEIGHT, GRID_SIZE,
    SpecialFood.update] at *
  split_ifs at * <;> simp_all <;> omega

/-- Helper: `SpecialFood.update` only ever negates velocity components, so their
magnitude bound is preserved. -/
theorem sf_update_velBound (s : SpecialFood)
    (hdx : -5 ≤ s.dx ∧ s.dx ≤ 5) (hdy : -5 ≤ s.dy ∧ s.dy ≤ 5) :
    (-5 ≤ s.update.dx ∧ s.update.dx ≤ 5) ∧
      (-5 ≤ s.update.dy ∧ s.update.dy ≤ 5) := by
  obtain ⟨x, y, dx, dy⟩ := s
  simp only [SpecialFood.update] at *
  split_ifs <;> simp_all <;> omega

/-- Inductive invariant of the reachable special-food states: bounded
velocity components and a footprint clear of both exclusion rectangles. -/
theorem sfreach_invariant (s : SpecialFood) (h : SFReach s) :
    ((-5 ≤ s.dx ∧ s.dx ≤ 5) ∧ (-5 ≤ s.dy ∧ s.dy ≤ 5)) ∧
      ¬ s.collidesForbidden := by
  induction h with
  | spawn x y dx dy hs hdx hdy =>
    refine ⟨⟨?_, ?_⟩, ?_⟩
    · rcases hdx with h1 | h1 | h1 | h1 <;> subst h1 <;> constructor <;> norm_num
    · rcases hdy with h1 | h1 | h1 | h1 <;> subst h1 <;> constructor <;> norm_num
    · have h7 := hs.2.2.2.2.2.2
      simpa [SpecialFood.collidesForbidden, SpecialFood.get_rect] using h7
  | step s hs ih =>
    exact ⟨sf_update_velBound s ih.1.1 ih.1.2,
      sf_update_preserves_ok s ih.1.1 ih.1.2 ih.2⟩

/-- C2: from every reachable special-food state, `SpecialFood.update`
returns with the two-cell footprint intersecting neither the pause-control
rectangle nor the score-readout rectangle. -/
theorem c2_update_avoids_exclusions (s : SpecialFood) (h : SFReach s) :
    ¬ s.update.collidesForbidden := by
  have hinv := sfreach_invariant s h
  exact sf_update_preserves_ok s hinv.1.1 hinv.1.2 hinv.2

/-- C2 witness: the spawn at cell (400, 300) with velocity (4, 5) is a
reachable special-food state, and after its `update` the footprint is
clear of both exclusion rectangles. -/
theorem c2_update_avoids_exclusions_witness :
    SFReach ⟨400, 300, 4, 5⟩ ∧
      ¬ (SpecialFood.update ⟨400, 300, 4, 5⟩).collidesForbidden :=
  ⟨SFReach.spawn 400 300 4 5 (by decide) (by decide) (by decide),
   c2_update_avoids_exclusions ⟨400, 300, 4, 5⟩
     (SFReach.spawn 400 300 4 5 (by decide) (by decide) (by decide))⟩

/-- Helper: `Snake.move` conserves body length plus the pending-grow bit: the head
copy pushed in front either replaces the popped tail or absorbs the grow
flag. -/
theorem move_length_grow (s : Snake) :
    s.move.body.length + (if s.move.grow then 1 else 0) =
      s.body.length + (if s.grow then 1 else 0) := by
  obtain ⟨h, b, d, nd, g⟩ := s
  cases g <;> simp [Snake.move, List.length_dropLast]

/-- Buffer writes do not touch the body or the grow flag. -/
theorem applyKeys_body_grow (s : Snake) (nd : Option Dir) :
    (applyKeys s nd).body = s.body ∧ (applyKeys s nd).grow = s.grow := by
  cases nd <;> exact ⟨rfl, rfl⟩

/-- Helper: `Snake.move` always leaves the grow flag cleared. -/
theorem move_grow (s : Snake) : s.move.grow = false := by
  obtain ⟨h, b, d, nd, g⟩ := s
  cases g <;> rfl

/-- C1 (amended): in every reachable session state, ten times the body
length plus the pending-grow bit, plus ten per special-food eat and ten
per tick on which both foods were eaten, equals the score.  The claimed
`10 * body length = score` fails while a grow is pending and once a
special food (worth 20 but one segment) has been eaten. -/
theorem c1_length_score_invariant (g : GameState) (h : Reachable g) :
    10 * (g.snake.body.length + (if g.snake.grow then 1 else 0)) +
      10 * g.specialEats + 10 * g.doubleEats = g.score := by
  induction h with
  | init speed foodPos h0 h1 h2 h3 => rfl
  | tick g nd newFood sp hg hv hok ih =>
    have hm := move_length_grow (applyKeys g.snake nd)
    have hak := applyKeys_body_grow g.snake nd
    have hmg := move_grow (applyKeys g.snake nd)
    rw [hak.1, hak.2, hmg] at hm
    simp only [Bool.false_eq_true, if_false] at hm
    by_cases hate : (applyKeys g.snake nd).move.head = g.foodPos <;>
      cases sp <;> simp [tickFun, hate, hmg] <;> omega

/-- C1 counterexample state: one tick from a start state whose food sits
one cell to the right of the snake's head — the snake eats it, the score
becomes 10, but the body is still empty until the next move. -/
def c1CexState : GameState :=
  tickFun (initState (1/10) (420, 300)) none (0, 80) false

/-- C1 counterexample: `c1CexState` is reachable (start at speed 0.1 with
the food at (420, 300), one tick with no input and no special food), yet
ten times its body length (0) differs from its score (10). -/
theorem c1_length_score_counterexample :
    Reachable c1CexState ∧
      ¬ (10 * c1CexState.snake.body.length = c1CexState.score) := by
  constructor
  · exact Reachable.tick _ none (0, 80) false
      (Reachable.init (1/10) (420, 300) (by norm_num) (by norm_num)
        (by decide) (by decide))
      (by decide) (by decide)
  · decide

/-- Helper: `updateScore` leaves the list unchanged when the first case-insensitive
match does not have a strictly smaller score than the incoming one. -/
theorem updateScore_noop (l : List Record) (u : String) (sc : Int) (now : Nat)
    (r0 : Record) (h : l.find? (fun r => matchesUser r u) = some r0)
    (hle : sc ≤ r0.score) : updateScore l u sc now = l := by
  induction l with
  | nil => simp at h
  | cons r rs ih =>
    by_cases hm : matchesUser r u
    · have hf : (r :: rs).find? (fun x => matchesUser x u) = some r :=
        List.find?_cons_of_pos rs hm
      rw [hf] at h
      injection h with h
      subst h
      simp [updateScore, hm, not_lt.mpr hle]
    · have hf : (r :: rs).find? (fun x => matchesUser x u) =
          rs.find? (fun x => matchesUser x u) :=
        List.find?_cons_of_neg rs hm
      rw [hf] at h
      simp [updateScore, hm, ih h]

/-- Membership in a descending insertion. -/
theorem mem_insertDesc {r x : Record} {l : List Record} :
    x ∈ insertDesc r l ↔ x = r ∨ x ∈ l := by
  induction l with
  | nil => simp [insertDesc]
  | cons a as ih =>
    simp only [insertDesc]
    split_ifs with h
    · simp only [List.mem_cons, ih]
      tauto
    · simp only [List.mem_cons]

/-- Descending insertion preserves the descending-by-score ordering. -/
theorem insertDesc_pairwise (r : Record) (l : List Record)
    (h : l.Pairwise (fun a b => b.score ≤ a.score)) :
    (insertDesc r l).Pairwise (fun a b => b.score ≤ a.score) := by
  induction l with
  | nil => simp [insertDesc]
  | cons a as ih =>
    rw [List.pairwise_cons] at h
    simp only [insertDesc]
    split_ifs with hcmp
    · rw [List.pairwise_cons]
      constructor
      · intro x hx
        rcases mem_insertDesc.mp hx with rfl | hx
        · exact le_of_lt hcmp
        · exact h.1 x hx
      · exact ih h.2
    · rw [List.pairwise_cons]
      constructor
      · intro x hx
        rcases List.mem_cons.mp hx with rfl | hx
        · exact not_lt.mp hcmp
        · exact le_trans (h.1 x hx) (not_lt.mp hcmp)
      · exact List.pairwise_cons.mpr h

/-- Helper: `sortDesc` always produces a descending-by-score list. -/
theorem sortDesc_pairwise (l : List Record) :
    (sortDesc l).Pairwise (fun a b => b.score ≤ a.score) := by
  induction l with
  | nil => simp [sortDesc]
  | cons a as ih => exact insertDesc_pairwise a (sortDesc as) ih

/-- C5: `add_score` matches identities case-insensitively, updates a
matching record only on a strictly greater score (refreshing its
timestamp) and otherwise appends: adding Alice 50 then alice 80 leaves one
record at 80 with the new timestamp; adding alice 80 then Alice 80 leaves
the first record's score and timestamp untouched; with no case-insensitive
match the record is appended before the sort/truncate; with a match whose
score is not beaten the records pass through the sort/truncate unchanged. -/
theorem c5_add_score_case_insensitive_keep_max :
    (∀ n1 n2 : Nat,
      add_score (add_score [] "Alice" 50 n1) "alice" 80 n2 =
        [⟨"Alice", 80, n2⟩]) ∧
    (∀ n1 n2 : Nat,
      add_score (add_score [] "alice" 80 n1) "Alice" 80 n2 =
        [⟨"alice", 80, n1⟩]) ∧
    (∀ (l : List Record) (u : String) (sc : Int) (now : Nat),
      (∀ r ∈ l, matchesUser r u = false) →
      add_score l u sc now = (sortDesc (l ++ [⟨u, sc, now⟩])).take 10) ∧
    (∀ (l : List Record) (u : String) (sc : Int) (now : Nat) (r0 : Record),
      l.find? (fun r => matchesUser r u) = some r0 → sc ≤ r0.score →
      add_score l u sc now = (sortDesc l).take 10) := by
  refine ⟨fun n1 n2 => rfl, fun n1 n2 => rfl, ?_, ?_⟩
  · intro l u sc now hno
    have hnone : l.find? (fun r => matchesUser r u) = none :=
      List.find?_eq_none.mpr (fun x hx => by simp [hno x hx])
    simp [add_score, hnone]
  · intro l u sc now r0 hfind hle
    have hsome : (l.find? fun r => matchesUser r u).isSome := by
      rw [hfind]
      rfl
    simp [add_score, hsome, updateScore_noop l u sc now r0 hfind hle]

/-- C5 witness: the Alice/alice instance at timestamps 0 and 1, and the
no-update instance on a board holding bob at 90 when BOB arrives with 50. -/
theorem c5_add_score_case_insensitive_keep_max_witness :
    add_score (add_score [] "Alice" 50 0) "alice" 80 1 = [⟨"Alice", 80, 1⟩] ∧
      add_score [⟨"bob", 90, 3⟩] "BOB" 50 7 =
        (sortDesc [⟨"bob", 90, 3⟩]).take 10 :=
  ⟨c5_add_score_case_insensitive_keep_max.1 0 1,
   c5_add_score_case_insensitive_keep_max.2.2.2 [⟨"bob", 90, 3⟩] "BOB" 50 7
     ⟨"bob", 90, 3⟩ (by decide) (by decide)⟩

/-- The boards obtained by feeding eleven distinct identities with
distinct scores into `add_score`, in an arbitrary interleaved order. -/
def elevenBoard : List Record :=
  List.foldl (fun acc e => add_score acc e.1 e.2 0) []
    [("u01", 60), ("u02", 30), ("u03", 110), ("u04", 90), ("u05", 20),
     ("u06", 70), ("u07", 100), ("u08", 40), ("u09", 80), ("u10", 50),
     ("u11", 10)]

/-- C6: every `add_score` result has at most 10 records and is sorted
descending by score; feeding 11 distinct identities retains exactly the
top 10 scores in descending order (the lowest, u11 at 10, is dropped). -/
theorem c6_cap10_sorted_desc :
    (∀ (l : List Record) (u : String) (sc : Int) (now : Nat),
      (add_score l u sc now).length ≤ 10 ∧
        (add_score l u sc now).Pairwise (fun a b => b.score ≤ a.score)) ∧
    elevenBoard =
      [⟨"u03", 110, 0⟩, ⟨"u07", 100, 0⟩, ⟨"u04", 90, 0⟩, ⟨"u09", 80, 0⟩,
       ⟨"u06", 70, 0⟩, ⟨"u01", 60, 0⟩, ⟨"u10", 50, 0⟩, ⟨"u08", 40, 0⟩,
       ⟨"u02", 30, 0⟩, ⟨"u05", 20, 0⟩] := by
  refine ⟨fun l u sc now => ⟨?_, ?_⟩, by decide⟩
  · simp [add_score, List.length_take]
  · exact (sortDesc_pairwise _).sublist (List.take_sublist _ _)

/-- C1 witness: the start state at speed one half with food at (0, 80) is
reachable and satisfies the amended invariant (0 = 0). -/
theorem c1_length_score_invariant_witness :
    Reachable (initState (1/2) (0, 80)) ∧
      10 * ((initState (1/2) (0, 80)).snake.body.length +
          (if (initState (1/2) (0, 80)).snake.grow then 1 else 0)) +
        10 * (initState (1/2) (0, 80)).specialEats +
        10 * (initState (1/2) (0, 80)).doubleEats =
        (initState (1/2) (0, 80)).score := by
  have hr : Reachable (initState (1/2) (0, 80)) :=
    Reachable.init (1/2) (0, 80) (by norm_num) (by norm_num)
      (by decide) (by decide)
  exact ⟨hr, c1_length_score_invariant _ hr⟩

/-- C7 counterexample: with corrupt (unparseable) contents in the
leaderboard file, `Leaderboard.load` raises — `json.load`'s
`JSONDecodeError` is not a `FileNotFoundError` and no handler catches it —
instead of falling back to an empty leaderboard. -/
theorem c7_corrupt_leaderboard_raises :
    leaderboardLoad ReadOutcome.corrupt =
      Except.error "json.JSONDecodeError" := rfl

/-- C7 (amended): `Leaderboard.load` is non-raising only for a missing file
(empty leaderboard), while `load_settings` is non-raising in both failure
modes: a missing file yields the defaults 0.5 and 0.1 and a corrupt file is
caught, leaving the current settings in place. -/
theorem c7_load_fallbacks :
    leaderboardLoad ReadOutcome.missing = Except.ok [] ∧
    (∀ prev : Settings, load_settings prev ReadOutcome.missing = ⟨1/2, 1/10⟩) ∧
    (∀ prev : Settings, load_settings prev ReadOutcome.corrupt = prev) :=
  ⟨rfl, fun _ => rfl, fun _ => rfl⟩

/-- Helper: `int(10 + speed * 20)` lies in `[10, 30]` whenever the configured
speed lies in `[0, 1]`. -/
theorem currentFps_bounds (speed : ℚ) (h0 : 0 ≤ speed) (h1 : speed ≤ 1) :
    10 ≤ currentFps speed ∧ currentFps speed ≤ 30 := by
  have hq0 : (0 : ℚ) ≤ 10 + speed * 20 := by nlinarith
  have hlo : (10 : ℚ) ≤ 10 + speed * 20 := by nlinarith
  have hhi : 10 + speed * 20 ≤ 30 := by nlinarith
  unfold currentFps pyInt
  rw [if_pos hq0]
  constructor
  · exact Rat.le_floor.mpr (by exact_mod_cast hlo)
  · by_contra hc
    push_neg at hc
    have h31 : (31 : ℤ) ≤ Rat.floor (10 + speed * 20) := hc
    have : (31 : ℚ) ≤ 10 + speed * 20 := by exact_mod_cast Rat.le_floor.mp h31
    linarith

/-- C8 (amended): in every reachable session state the frame rate equals
`int(10 + speed * 20)` — the floor of `10 + speed * 20`, an integer in
`[10, 30]` — and no tick recomputes it.  The claimed exact equality with
`10 + speed * 20` fails whenever that value is not an integer. -/
theorem c8_fps_derived_once (g : GameState) (h : Reachable g) :
    g.fps = currentFps g.speed ∧ 10 ≤ g.fps ∧ g.fps ≤ 30 ∧
      (∀ (nd : Option Dir) (nf : Int × Int) (sp : Bool),
        (tickFun g nd nf sp).fps = g.fps) := by
  induction h with
  | init speed foodPos h0 h1 hv hok =>
    have hb := currentFps_bounds speed h0 h1
    exact ⟨rfl, hb.1, hb.2, fun _ _ _ => rfl⟩
  | tick g nd nf sp hg hv hok ih =>
    exact ⟨ih.1, ih.2.1, ih.2.2.1, fun _ _ _ => rfl⟩

/-- C8 counterexample: at configured speed 0.33 the session's frame rate is
`int(10 + 0.33*20) = 16`, which differs from the claimed exact value
`10 + 0.33*20 = 16.6`. -/
theorem c8_fps_truncated_counterexample :
    Reachable (initState (33/100) (0, 80)) ∧
      (initState (33/100) (0, 80)).fps = 16 ∧
      ¬ (((initState (33/100) (0, 80)).fps : ℚ) = 10 + (33/100) * 20) := by
  have hpos : (0 : ℚ) ≤ 10 + (33/100) * 20 := by norm_num
  have hfl : ⌊(10 + (33/100 : ℚ) * 20)⌋ = 16 := by
    norm_num [Int.floor_eq_iff]
  have hval : currentFps (33/100) = 16 := by
    unfold currentFps pyInt
    rw [if_pos hpos]
    exact hfl
  have hval2 : (initState (33/100) (0, 80)).fps = 16 := hval
  refine ⟨Reachable.init (33/100) (0, 80) (by norm_num) (by norm_num)
    (by decide) (by decide), hval2, ?_⟩
  intro hcontra
  rw [hval2] at hcontra
  norm_num at hcontra

/-- C8 witness: at configured speed one half the start state is reachable,
its frame rate is the derived constant (20) within `[10, 30]`, and a tick
leaves it unchanged. -/
theorem c8_fps_derived_once_witness :
    Reachable (initState (1/2) (0, 80)) ∧
      (initState (1/2) (0, 80)).fps = currentFps (1/2) ∧
      10 ≤ (initState (1/2) (0, 80)).fps ∧
      (initState (1/2) (0, 80)).fps ≤ 30 ∧
      (tickFun (initState (1/2) (0, 80)) none (0, 80) false).fps =
        (initState (1/2) (0, 80)).fps := by
  have hr : Reachable (initState (1/2) (0, 80)) :=
    Reachable.init (1/2) (0, 80) (by norm_num) (by norm_num)
      (by decide) (by decide)
  have h := c8_fps_derived_once _ hr
  exact ⟨hr, h.1, h.2.1, h.2.2.1, h.2.2.2 none (0, 80) false⟩

/-- C10: the food spawn test consults only the two exclusion rectangles,
never the snake — from a reachable state the next candidate equal to the
snake's head cell is accepted — and every accepted spawn is cell-aligned,
inside the grid, and clear of the exclusion rectangles. -/
theorem c10_spawn_ignores_snake :
    (Reachable (initState (1/2) (0, 80)) ∧
      Food.spawnFrom [(initState (1/2) (0, 80)).snake.head] =
        some (initState (1/2) (0, 80)).snake.head) ∧
    (∀ draws : List (Int × Int), (∀ c ∈ draws, validDraw c) →
      ∀ p, Food.spawnFrom draws = some p → validDraw p ∧ foodCellOK p) := by
  constructor
  · exact ⟨Reachable.init (1/2) (0, 80) (by norm_num) (by norm_num)
      (by decide) (by decide), by decide⟩
  · intro draws
    induction draws with
    | nil =>
      intro _ p hp
      simp [Food.spawnFrom] at hp
    | cons c cs ih =>
      intro hv p hp
      simp only [Food.spawnFrom] at hp
      split_ifs at hp with hok
      · injection hp with hp
        subst hp
        exact ⟨hv c (List.mem_cons_self c cs), hok⟩
      · exact ih (fun x hx => hv x (List.mem_cons_of_mem c hx)) p hp

/-- C10 witness: the head-center cell (400, 300) is a valid, accepted
draw: cell-aligned, inside the grid, and clear of both exclusion
rectangles. -/
theorem c10_spawn_ignores_snake_witness :
    validDraw ((400 : Int), 300) ∧ foodCellOK ((400 : Int), 300) :=
  c10_spawn_ignores_snake.2 [(400, 300)] (by decide) (400, 300) (by decide)

end SnakeGame
